import Mathlib

/-!
Shallow embedding of `src/tanzania_water_pump/src/preprocess.py`.

A pandas DataFrame is modelled as a `List Row`; numeric (float/int) columns
are modelled over `ℚ` (exact rational arithmetic stands in for float
arithmetic), a float column that may hold NaN is modelled as `Option ℚ`
(`none` = NaN), and nullable object columns as `Option _`.  The
`source_class` column only ever holds one of three category strings
(anything else would make `astype(int)` raise), so it is modelled by a
three-valued inductive type.

The `center_distance` column is produced by the trigonometric `distance`
helper; floats with `cos`/`arcsin`/`sqrt` are modelled over `ℝ`, so
`distance` is kept as a separate real-valued function (see `distance`
below) rather than a field of the computable output row.
-/

/-- The three values of the `source_class` column. -/
inductive SourceClass
  | groundwater
  | surface
  | unknown
deriving DecidableEq, Repr, Inhabited

/-- One input row, restricted to the columns `preprocess_data` and
`preprocess_y` actually read or transform.  The auxiliary columns that are
merely dropped at the end are omitted. -/
structure Row where
  latitude : ℚ
  longitude : ℚ
  gps_height : ℚ
  region_code : ℤ
  basin : String
  population : ℚ
  date_recorded : String
  construction_year : ℤ
  quantity : String
  public_meeting : Option Bool
  permit : Option Bool
  funder : Option String
  installer : Option String
  source_class : SourceClass
  status_group : String
deriving DecidableEq, Repr, Inhabited

/-- One output row of `preprocess_data` (after the final `.drop`), minus the
real-valued `center_distance` column, which is modelled separately by
`distance`. -/
structure OutRow where
  latitude : ℚ
  longitude : ℚ
  gps_height : ℚ
  basin : String
  population : ℚ
  age : Option ℚ
  quantity : String
  public_meeting : ℤ
  permit : ℤ
  funder : String
  installer : String
  ground_water : ℤ
deriving DecidableEq, Repr, Inhabited

/-- Model of `ser.value_counts()`: the distinct values of the column paired with
their multiplicities, ordered by descending count (ties resolved by a
deterministic order, as in the source's single-pass counting). -/
def valueCounts (ser : List String) : List (String × ℕ) :=
  List.insertionSort (fun a b => b.2 ≤ a.2)
    (ser.dedup.map (fun v => (v, ser.count v)))

/-- Model of `counts.index[:n]`: the `n` most frequent distinct values. -/
def topIndexN (ser : List String) (n : ℕ) : List String :=
  ((valueCounts ser).take n).map Prod.fst

/-- Model of `topn(ser, n, default)`, which is
`ser.where(ser.isin(counts.index[:n]), default)`. -/
def topn (ser : List String) (n : ℕ) (dflt : String) : List String :=
  ser.map (fun v => if v ∈ topIndexN ser n then v else dflt)

/-- numpy float-to-int conversion (`astype(int)`): truncation toward zero. -/
def truncQ (q : ℚ) : ℤ :=
  if q < 0 then ⌈q⌉ else ⌊q⌋

/-- Decimal reading of a digit list (`astype(int)` on a digit string). -/
def digitsToNat (cs : List Char) : ℕ :=
  cs.foldl (fun n c => 10 * n + (c.toNat - 48)) 0

/-- Model of `df["date_recorded"].str.split("-").str[0].astype(int)`: the year field
of a `"YYYY-MM-DD"` string is everything before the first `"-"`, read as a
decimal integer (`astype(int)` raises on non-digits; inputs are assumed
well-formed there, as in the source). -/
def recordedYear (s : String) : ℤ :=
  (digitsToNat (s.data.takeWhile (fun c => c ≠ '-')) : ℤ)

/-- Mean of a list of rationals (`Series.mean`): `0/0 = 0` never arises for
the group means because every mapped key has at least one row. -/
def listMean (xs : List ℚ) : ℚ :=
  xs.sum / (xs.length : ℚ)

/-- Model of `df.groupby("region_code")["longitude"].mean()` looked up at `code`. -/
def regionMeanLongitude (df : List Row) (code : ℤ) : ℚ :=
  listMean ((df.filter (fun r => r.region_code = code)).map (·.longitude))

/-- Model of `df.groupby("basin")["gps_height"].mean()` looked up at `b`. -/
def basinMeanGps (df : List Row) (b : String) : ℚ :=
  listMean ((df.filter (fun r => r.basin = b)).map (·.gps_height))

/-- Model of `df.groupby("basin")["population"].mean()` looked up at `b`. -/
def basinMeanPop (df : List Row) (b : String) : ℚ :=
  listMean ((df.filter (fun r => r.basin = b)).map (·.population))

/-- First-pass age: `year(date_recorded) - construction_year.replace(0, nan)`;
`none` models the NaN produced when `construction_year == 0`. -/
def age1 (r : Row) : Option ℚ :=
  if r.construction_year = 0 then none
  else some ((recordedYear r.date_recorded : ℚ) - (r.construction_year : ℚ))

/-- Model of `_df["age"].mean()`: pandas skips NaN, so this is the mean of the
*defined* first-pass ages (negative ones included); NaN when none is
defined. -/
def meanAge (df : List Row) : Option ℚ :=
  let xs := df.filterMap age1
  if xs.isEmpty then none else some (listMean xs)

/-- Second pass over `age`:
`np.where((age < 0) | (age.isna()), age.mean(), age)`. -/
def age2 (df : List Row) (r : Row) : Option ℚ :=
  match age1 r with
  | none => meanAge df
  | some a => if a < 0 then meanAge df else some a

/-- Model of `df.funder.fillna("Unknown")` at one row. -/
def funderFill (r : Row) : String :=
  r.funder.getD "Unknown"

/-- Model of `df.installer.fillna("Unknown").replace({"0": "Unknown"})` at one
row. -/
def installerFill (r : Row) : String :=
  let s := r.installer.getD "Unknown"
  if s = "0" then "Unknown" else s

/-- Pointwise body of `topn` with `n = 10` (the `.pipe(topn, n=10)` calls):
keep `v` when it is among the 10 most frequent values of `ser`, else
`"other"`. -/
def topApply10 (ser : List String) (v : String) : String :=
  if v ∈ topIndexN ser 10 then v else "other"

/-- Model of the `source_class` recode
`replace({"groundwater": 1, "surface": 0, "unknown": 1}).astype(int)`. -/
def groundWater : SourceClass → ℤ
  | .groundwater => 1
  | .surface => 0
  | .unknown => 1

/-- Model of `df.quantity.replace({"unknown": "dry"})`. -/
def quantityFix (q : String) : String :=
  if q = "unknown" then "dry" else q

/-- Model of `fillna(False).astype(int)` for the nullable boolean columns. -/
def boolInt (b : Option Bool) : ℤ :=
  if b.getD false then 1 else 0

/-- The value row `r` of input `df` is mapped to: every column assignment of
`preprocess_data` is elementwise in the row once the dataset-wide
aggregates (group means, dataset mean age, top-10 value sets) are fixed. -/
def transformRow (df : List Row) (r : Row) : OutRow :=
  { latitude := r.latitude
    longitude :=
      if r.longitude = 0 then regionMeanLongitude df r.region_code
      else r.longitude
    gps_height :=
      if r.gps_height = 0 then basinMeanGps df r.basin
      else r.gps_height
    basin := r.basin
    population :=
      if r.population = 0 ∨ r.population = 1 then
        (truncQ (basinMeanPop df r.basin) : ℚ)
      else r.population
    age := age2 df r
    quantity := quantityFix r.quantity
    public_meeting := boolInt r.public_meeting
    permit := boolInt r.permit
    funder := topApply10 (df.map funderFill) (funderFill r)
    installer := topApply10 (df.map installerFill) (installerFill r)
    ground_water := groundWater r.source_class }

/-- Model of `preprocess_data(df)`: all columns are assigned in one batch from the
*input* `df` (the first `assign` reads only `df`), then the `age` column is
re-assigned from the dataset mean, then columns are dropped; rowwise this
is exactly `transformRow df` applied to every row in order. -/
def preprocess_data (df : List Row) : List OutRow :=
  df.map (transformRow df)

/-- A value of the array returned by `preprocess_y`: `Series.replace` maps
the three known labels to integers and passes any other value through
unchanged, so the result is heterogeneous. -/
inductive YVal
  | int (n : ℤ)
  | str (s : String)
deriving DecidableEq, Repr, Inhabited

/-- Model of
`replace({"functional": 2, "non functional": 0, "functional needs repair": 1})`
at one value. -/
def encodeStatus (s : String) : YVal :=
  if s = "functional" then .int 2
  else if s = "non functional" then .int 0
  else if s = "functional needs repair" then .int 1
  else .str s

/-- Model of `preprocess_y(df)`: encode the `status_group` column, row order
kept. -/
def preprocess_y (df : List Row) : List YVal :=
  df.map (fun r => encodeStatus r.status_group)

/-- Model of `distance(df, lat, lon)` at a row with coordinates
`(latitude, longitude)`: the haversine formula as written in the source,
over `ℝ` (the float trigonometry is modelled by exact real arithmetic). -/
noncomputable def distance (latitude longitude lat lon : ℝ) : ℝ :=
  let p : ℝ := 0.017453292519943295
  let lat_diff : ℝ := (latitude - lat) * p
  let lon_diff : ℝ := (longitude - lon) * p
  let hav : ℝ :=
    0.5 - Real.cos lat_diff / 2 +
      Real.cos (lat * p) * Real.cos (latitude * p) * (1 - Real.cos lon_diff) / 2
  12742 * Real.arcsin (Real.sqrt hav)

/-- Spec-style mean for the age second pass, as the spec words it: over the
*valid* (defined and non-negative) first-pass ages.  Used to compare the
spec's description with what the code computes (`meanAge`). -/
def meanValidAge (df : List Row) : Option ℚ :=
  let xs := (df.filterMap age1).filter (fun a => 0 ≤ a)
  if xs.isEmpty then none else some (listMean xs)

/-- Spec-expectation variant of `regionMeanLongitude` that excludes the
sentinel (`longitude == 0`) rows from the group mean. -/
def regionMeanLongitudeNZ (df : List Row) (code : ℤ) : ℚ :=
  listMean
    ((df.filter (fun r => r.region_code = code ∧ r.longitude ≠ 0)).map (·.longitude))

/-- Spec-expectation variant of `basinMeanGps` that excludes the sentinel
(`gps_height == 0`) rows from the group mean. -/
def basinMeanGpsNZ (df : List Row) (b : String) : ℚ :=
  listMean
    ((df.filter (fun r => r.basin = b ∧ r.gps_height ≠ 0)).map (·.gps_height))

/-- Spec-expectation variant of `basinMeanPop` that excludes the sentinel
(`population == 0 or 1`) rows from the group mean. -/
def basinMeanPopValid (df : List Row) (b : String) : ℚ :=
  listMean
    ((df.filter (fun r => r.basin = b ∧ r.population ≠ 0 ∧ r.population ≠ 1)).map
      (·.population))

/-- The three known `status_group` label strings. -/
def statusLabels : List String :=
  ["functional", "non functional", "functional needs repair"]

/-! ### Helper lemmas -/

lemma preprocess_data_length (df : List Row) :
    (preprocess_data df).length = df.length := by
  simp [preprocess_data]

lemma preprocess_data_getD (df : List Row) (i : ℕ) (hi : i < df.length) :
    (preprocess_data df).getD i default = transformRow df (df.getD i default) := by
  have hlen : i < (preprocess_data df).length := by
    simpa [preprocess_data] using hi
  rw [List.getD_eq_getElem _ _ hlen, List.getD_eq_getElem _ _ hi]
  simp [preprocess_data]

lemma preprocess_y_getD (df : List Row) (i : ℕ) (hi : i < df.length) :
    (preprocess_y df).getD i (.str "") =
      encodeStatus ((df.getD i default).status_group) := by
  have hlen : i < (preprocess_y df).length := by
    simpa [preprocess_y] using hi
  rw [List.getD_eq_getElem _ _ hlen, List.getD_eq_getElem _ _ hi]
  simp [preprocess_y]

lemma mem_topIndexN_of_dedup_le (ser : List String) (n : ℕ)
    (h : ser.dedup.length ≤ n) {v : String} (hv : v ∈ ser) :
    v ∈ topIndexN ser n := by
  unfold topIndexN valueCounts
  set pairs := ser.dedup.map (fun v => (v, ser.count v)) with hpairs
  have hperm : List.Perm (List.insertionSort (fun a b => b.2 ≤ a.2) pairs) pairs :=
    List.perm_insertionSort _ _
  have hlen : (List.insertionSort (fun a b => b.2 ≤ a.2) pairs).length ≤ n := by
    rw [hperm.length_eq, hpairs, List.length_map]
    exact h
  rw [List.take_of_length_le hlen]
  refine List.mem_map.2 ⟨(v, ser.count v), ?_, rfl⟩
  exact hperm.mem_iff.2 (List.mem_map.2 ⟨v, List.mem_dedup.2 hv, rfl⟩)

lemma topn_dedup_length_le (ser : List String) (n : ℕ) (dflt : String) :
    (topn ser n dflt).dedup.length ≤ n + 1 := by
  have hsub : (topn ser n dflt).toFinset ⊆ (topIndexN ser n ++ [dflt]).toFinset := by
    intro v hv
    rcases List.mem_map.1 (List.mem_toFinset.1 hv) with ⟨w, _, rfl⟩
    by_cases h : w ∈ topIndexN ser n
    · simp [h]
    · simp [h]
  calc (topn ser n dflt).dedup.length
      = (topn ser n dflt).toFinset.card := (List.card_toFinset _).symm
    _ ≤ (topIndexN ser n ++ [dflt]).toFinset.card := Finset.card_le_card hsub
    _ ≤ (topIndexN ser n ++ [dflt]).length := List.toFinset_card_le _
    _ ≤ n + 1 := by
        simp only [List.length_append, List.length_cons, List.length_nil, topIndexN,
          List.length_map]
        have := List.length_take_le n (valueCounts ser)
        omega

/-! ### Claims -/

/-- C8: the haversine `distance` is symmetric in the two coordinate pairs
(swapping which pair is the reference yields the same value), and a row
whose coordinates equal the reference point exactly is at distance 0. -/
theorem distance_symm_and_zero :
    (∀ a b c d : ℝ, distance a b c d = distance c d a b) ∧
    (∀ a b : ℝ, distance a b a b = 0) := by
  constructor
  · intro a b c d
    simp only [distance]
    have hlat : Real.cos ((c - a) * 0.017453292519943295) =
        Real.cos ((a - c) * 0.017453292519943295) := by
      rw [show (c - a) * (0.017453292519943295 : ℝ) =
          -((a - c) * 0.017453292519943295) by ring, Real.cos_neg]
    have hlon : Real.cos ((d - b) * 0.017453292519943295) =
        Real.cos ((b - d) * 0.017453292519943295) := by
      rw [show (d - b) * (0.017453292519943295 : ℝ) =
          -((b - d) * 0.017453292519943295) by ring, Real.cos_neg]
    rw [hlat, hlon]
    ring_nf
  · intro a b
    simp only [distance, sub_self, zero_mul, Real.cos_zero]
    norm_num [Real.sqrt_zero, Real.arcsin_zero]

/-- C6: `topn` keeps exactly the values among the `n` most frequent distinct
values of the series and replaces every other value with the default label;
when the series has fewer than `n` distinct values every value is kept
unchanged; and the spec's example
`topn(["a","a","a","b","b","c"], 2, "other")` holds. -/
theorem topn_spec :
    (∀ (ser : List String) (n : ℕ) (dflt : String),
      (topn ser n dflt).length = ser.length ∧
      (∀ i, i < ser.length →
        (topn ser n dflt).getD i dflt =
          if ser.getD i dflt ∈ topIndexN ser n then ser.getD i dflt else dflt) ∧
      (ser.dedup.length < n → topn ser n dflt = ser)) ∧
    topn ["a", "a", "a", "b", "b", "c"] 2 "other" =
      ["a", "a", "a", "b", "b", "other"] := by
  constructor
  · intro ser n dflt
    refine ⟨List.length_map _ _, fun i hi => ?_, fun hlt => ?_⟩
    · have hlen : i < (topn ser n dflt).length := by simpa [topn] using hi
      rw [List.getD_eq_getElem _ _ hlen, List.getD_eq_getElem _ _ hi]
      simp [topn]
    · have hkeep : ∀ v ∈ ser, (if v ∈ topIndexN ser n then v else dflt) = v := by
        intro v hv
        simp [mem_topIndexN_of_dedup_le ser n (le_of_lt hlt) hv]
      calc topn ser n dflt = ser.map (fun v => v) := List.map_congr_left hkeep
        _ = ser := List.map_id' ser
  · decide

/-- Witness for C6 at concrete inputs: the pointwise clause at the series
`["x","x","y"]` with `n = 1`, and the fewer-distinct-values clause at
`["p","q"]` with `n = 3`. -/
theorem topn_spec_witness :
    ((topn ["x", "x", "y"] 1 "other").getD 2 "other" =
      if List.getD ["x", "x", "y"] 2 "other" ∈ topIndexN ["x", "x", "y"] 1
      then List.getD ["x", "x", "y"] 2 "other" else "other") ∧
    topn ["p", "q"] 3 "other" = ["p", "q"] :=
  ⟨(topn_spec.1 ["x", "x", "y"] 1 "other").2.1 2 (by decide),
   (topn_spec.1 ["p", "q"] 3 "other").2.2 (by decide)⟩

/-- C5: the funder and installer columns of the output each take at most 11
distinct values (at most the 10 most frequent values plus the default
bucket): both columns are exactly `topn` with `n = 10` of the filled input
column. -/
theorem funder_installer_at_most_11 (df : List Row) :
    ((preprocess_data df).map (fun o => o.funder)).dedup.length ≤ 11 ∧
    ((preprocess_data df).map (fun o => o.installer)).dedup.length ≤ 11 := by
  have hf : (preprocess_data df).map (fun o => o.funder) =
      topn (df.map funderFill) 10 "other" := by
    simp only [preprocess_data, List.map_map, topn]
    rfl
  have hins : (preprocess_data df).map (fun o => o.installer) =
      topn (df.map installerFill) 10 "other" := by
    simp only [preprocess_data, List.map_map, topn]
    rfl
  rw [hf, hins]
  exact ⟨topn_dedup_length_le _ _ _, topn_dedup_length_le _ _ _⟩

/-- C4: `preprocess_data` neither adds nor removes rows: output length
equals input length, and row `i` of the output is the transform of row `i`
of the input (under the dataset-wide aggregates of the whole input). -/
theorem preprocess_data_row_preserving (df : List Row) :
    (preprocess_data df).length = df.length ∧
    ∀ i, i < df.length →
      (preprocess_data df).getD i default = transformRow df (df.getD i default) :=
  ⟨preprocess_data_length df, fun i hi => preprocess_data_getD df i hi⟩

/-- An unremarkable fully-populated input row used by concrete witnesses. -/
def exRow : Row :=
  { latitude := -3, longitude := 36, gps_height := 100, region_code := 11,
    basin := "Lake Victoria", population := 25, date_recorded := "2011-03-15",
    construction_year := 2000, quantity := "enough", public_meeting := some true,
    permit := none, funder := some "Danida", installer := some "DWE",
    source_class := .groundwater, status_group := "functional" }

/-- Witness for C4 at the one-row dataset `[exRow]`. -/
theorem preprocess_data_row_preserving_witness :
    (preprocess_data [exRow]).getD 0 default =
      transformRow [exRow] (List.getD [exRow] 0 default) :=
  (preprocess_data_row_preserving [exRow]).2 0 (by decide)

/-- C7: when every `status_group` value is one of the three known labels,
`preprocess_y` returns one integer per row in row order, mapping
functional to 2, non functional to 0, and functional needs repair to 1,
and that mapping is a bijection between the three labels and {0, 1, 2}
(the encoded label list is a permutation of `[0, 1, 2]`). -/
theorem preprocess_y_known (df : List Row)
    (h : ∀ r ∈ df, r.status_group ∈ statusLabels) :
    ((preprocess_y df).length = df.length ∧
      ∀ i, i < df.length →
        (∃ c : ℤ, (preprocess_y df).getD i (.str "") = .int c) ∧
        ((df.getD i default).status_group = "functional" →
          (preprocess_y df).getD i (.str "") = .int 2) ∧
        ((df.getD i default).status_group = "non functional" →
          (preprocess_y df).getD i (.str "") = .int 0) ∧
        ((df.getD i default).status_group = "functional needs repair" →
          (preprocess_y df).getD i (.str "") = .int 1)) ∧
    List.Perm (statusLabels.map encodeStatus) [.int 0, .int 1, .int 2] := by
  refine ⟨⟨by simp [preprocess_y], fun i hi => ?_⟩, by decide⟩
  have hmem : df.getD i default ∈ df := by
    rw [List.getD_eq_getElem _ _ hi]
    exact List.getElem_mem hi
  have hlab := h _ hmem
  rw [preprocess_y_getD df i hi]
  simp only [statusLabels, List.mem_cons, List.not_mem_nil, or_false] at hlab
  rcases hlab with hl | hl | hl <;>
    refine ⟨?_, fun hf => ?_, fun hn => ?_, fun hr => ?_⟩ <;>
    simp_all [encodeStatus]

/-- Rows with each of the three known labels, for the C7 witness. -/
def yRow1 : Row := exRow
def yRow2 : Row := { exRow with status_group := "non functional" }
def yRow3 : Row := { exRow with status_group := "functional needs repair" }

/-- Witness for C7 at a three-row dataset carrying the three known labels. -/
theorem preprocess_y_known_witness :
    (preprocess_y [yRow1, yRow2, yRow3]).length =
      ([yRow1, yRow2, yRow3] : List Row).length ∧
    (preprocess_y [yRow1, yRow2, yRow3]).getD 1 (.str "") = .int 0 := by
  have hall : ∀ r ∈ ([yRow1, yRow2, yRow3] : List Row),
      r.status_group ∈ statusLabels := by decide
  refine ⟨(preprocess_y_known [yRow1, yRow2, yRow3] hall).1.1, ?_⟩
  exact ((preprocess_y_known [yRow1, yRow2, yRow3] hall).1.2 1 (by decide)).2.2.1
    (by decide)

/-- A row whose `status_group` is none of the three known labels. -/
def badRow : Row := { exRow with status_group := "abandoned" }

/-- C10: an unknown `status_group` value does not raise: `replace` passes
it through unchanged at its row position, so the returned sequence is not
guaranteed to consist only of integers (the dataset `[badRow]` yields a
non-integer entry). -/
theorem preprocess_y_unknown_passthrough :
    (∀ (df : List Row) (i : ℕ), i < df.length →
      (df.getD i default).status_group ∉ statusLabels →
      (preprocess_y df).getD i (.str "") =
        .str ((df.getD i default).status_group)) ∧
    ∃ v ∈ preprocess_y [badRow], ∀ c : ℤ, v ≠ .int c := by
  constructor
  · intro df i hi hns
    simp only [statusLabels, List.mem_cons, List.not_mem_nil, or_false, not_or] at hns
    rw [preprocess_y_getD df i hi]
    unfold encodeStatus
    rw [if_neg hns.1, if_neg hns.2.1, if_neg hns.2.2]
  · exact ⟨.str "abandoned", by decide, fun c h => YVal.noConfusion h⟩

/-- Witness for C10 at the one-row dataset `[badRow]`. -/
theorem preprocess_y_unknown_passthrough_witness :
    (preprocess_y [badRow]).getD 0 (.str "") =
      .str ((List.getD [badRow] 0 default).status_group) :=
  preprocess_y_unknown_passthrough.1 [badRow] 0 (by decide) (by decide)

/-- A row whose recorded year precedes its construction year: its
first-pass age is -5, and it is the dataset's only defined age. -/
def cexNegAgeRow : Row :=
  { exRow with date_recorded := "2005-01-01", construction_year := 2010 }

/-- A row with the `construction_year == 0` sentinel: its first-pass age is
NaN, and alone in a dataset there is no defined age at all. -/
def cexNaNAgeRow : Row :=
  { exRow with construction_year := 0 }

/-- C1 counterexample: the second pass replaces bad ages with
`_df["age"].mean()`, which can itself be negative (dataset
`[cexNegAgeRow]`: the surviving age is -5 < 0) or NaN (dataset
`[cexNaNAgeRow]`: the age column stays undefined). -/
theorem age_nonneg_cex :
    (∃ o ∈ preprocess_data [cexNegAgeRow], o.age = some (-5) ∧ (-5 : ℚ) < 0) ∧
    (∃ o ∈ preprocess_data [cexNaNAgeRow], o.age = none) := by
  constructor
  · refine ⟨transformRow [cexNegAgeRow] cexNegAgeRow, by simp [preprocess_data],
      ?_, by norm_num⟩
    show age2 [cexNegAgeRow] cexNegAgeRow = some (-5)
    simp [age2, age1, meanAge, listMean, recordedYear, digitsToNat, cexNegAgeRow,
      exRow]
    norm_num
  · refine ⟨transformRow [cexNaNAgeRow] cexNaNAgeRow, by simp [preprocess_data], ?_⟩
    show age2 [cexNaNAgeRow] cexNaNAgeRow = none
    simp [age2, age1, meanAge, cexNaNAgeRow, exRow]

/-- C1 (amended): provided the dataset mean of the defined first-pass ages
exists and is non-negative, every row of the output of `preprocess_data`
has a defined age ≥ 0. -/
theorem age_nonneg_amended (df : List Row) (m : ℚ)
    (hm : meanAge df = some m) (hm0 : 0 ≤ m) :
    ∀ o ∈ preprocess_data df, ∃ a, o.age = some a ∧ 0 ≤ a := by
  intro o ho
  rcases List.mem_map.1 ho with ⟨r, _, rfl⟩
  show ∃ a, age2 df r = some a ∧ 0 ≤ a
  unfold age2
  cases hc : age1 r with
  | none => exact ⟨m, hm, hm0⟩
  | some a =>
    by_cases ha : a < 0
    · refine ⟨m, ?_, hm0⟩
      show (if a < 0 then meanAge df else some a) = some m
      rw [if_pos ha]; exact hm
    · refine ⟨a, ?_, le_of_not_lt ha⟩
      show (if a < 0 then meanAge df else some a) = some a
      rw [if_neg ha]

/-- Witness for C1 (amended) at `[exRow]`, whose only age is 11 and whose
mean age is therefore 11 ≥ 0, specialised to the single output row. -/
theorem age_nonneg_amended_witness :
    ∃ a, (transformRow [exRow] exRow).age = some a ∧ 0 ≤ a :=
  age_nonneg_amended [exRow] 11
    (by simp [meanAge, age1, listMean, recordedYear, digitsToNat, exRow]; norm_num)
    (by norm_num)
    (transformRow [exRow] exRow)
    (by simp [preprocess_data])

/-- Recorded 2010, built 2000: first-pass age 10 (valid). -/
def ageRowA : Row :=
  { exRow with date_recorded := "2010-01-01", construction_year := 2000 }

/-- Recorded 2010, built 2012: first-pass age -2 (invalid, replaced). -/
def ageRowB : Row :=
  { exRow with date_recorded := "2010-01-01", construction_year := 2012 }

/-- C2 counterexample: on `[ageRowA, ageRowB]` (first-pass ages 10 and -2)
the code replaces the bad age with `mean` of *all defined* ages,
(10 + (-2)) / 2 = 4, not with the mean of the *valid* (non-negative)
ages, which is 10. -/
theorem age_replacement_mean_cex :
    ((preprocess_data [ageRowA, ageRowB]).getD 1 default).age = some 4 ∧
    meanValidAge [ageRowA, ageRowB] = some 10 ∧
    some (4 : ℚ) ≠ some (10 : ℚ) := by
  refine ⟨?_, ?_, by norm_num⟩
  · have h1 : age1 ageRowA = some 10 := by
      simp [age1, ageRowA, exRow, recordedYear, digitsToNat]
      norm_num
    have h2 : age1 ageRowB = some (-2) := by
      simp [age1, ageRowB, exRow, recordedYear, digitsToNat]
      norm_num
    have hm : meanAge [ageRowA, ageRowB] = some 4 := by
      simp [meanAge, h1, h2, listMean]
      norm_num
    rw [preprocess_data_getD _ 1 (by decide)]
    show age2 [ageRowA, ageRowB] (List.getD [ageRowA, ageRowB] 1 default) = some 4
    have hB : List.getD [ageRowA, ageRowB] 1 default = ageRowB := rfl
    rw [hB]
    unfold age2
    rw [h2]
    show (if (-2 : ℚ) < 0 then meanAge [ageRowA, ageRowB] else some (-2)) = some 4
    rw [if_pos (by norm_num)]
    exact hm
  · have h1 : age1 ageRowA = some 10 := by
      simp [age1, ageRowA, exRow, recordedYear, digitsToNat]
      norm_num
    have h2 : age1 ageRowB = some (-2) := by
      simp [age1, ageRowB, exRow, recordedYear, digitsToNat]
      norm_num
    simp [meanValidAge, h1, h2, listMean]

/-- C2 (amended): a row whose first-pass age is negative or undefined gets
the mean of all *defined* first-pass ages of the dataset (negative ones
included, NaN ones skipped; NaN when no age is defined), and a row with a
valid (defined, non-negative) first-pass age keeps it unchanged. -/
theorem age_replacement_mean_amended (df : List Row) (i : ℕ)
    (hi : i < df.length) :
    ((age1 (df.getD i default) = none ∨
        (∃ a, age1 (df.getD i default) = some a ∧ a < 0)) →
      ((preprocess_data df).getD i default).age = meanAge df) ∧
    (∀ a, age1 (df.getD i default) = some a → 0 ≤ a →
      ((preprocess_data df).getD i default).age = some a) := by
  rw [preprocess_data_getD df i hi]
  constructor
  · rintro (h | ⟨a, ha, hneg⟩)
    · show age2 df (df.getD i default) = meanAge df
      unfold age2
      rw [h]
    · show age2 df (df.getD i default) = meanAge df
      unfold age2
      rw [ha]
      show (if a < 0 then meanAge df else some a) = meanAge df
      rw [if_pos hneg]
  · intro a ha h0
    show age2 df (df.getD i default) = some a
    unfold age2
    rw [ha]
    show (if a < 0 then meanAge df else some a) = some a
    rw [if_neg (not_lt.2 h0)]

/-- Witness for C2 (amended) at `[ageRowA, ageRowB]`: the invalid row 1 is
replaced by the dataset mean of defined ages, and the valid row 0 keeps
its age 10. -/
theorem age_replacement_mean_amended_witness :
    ((preprocess_data [ageRowA, ageRowB]).getD 1 default).age =
      meanAge [ageRowA, ageRowB] ∧
    ((preprocess_data [ageRowA, ageRowB]).getD 0 default).age = some 10 := by
  have h1 : age1 ageRowA = some 10 := by
    simp [age1, ageRowA, exRow, recordedYear, digitsToNat]
    norm_num
  have h2 : age1 ageRowB = some (-2) := by
    simp [age1, ageRowB, exRow, recordedYear, digitsToNat]
    norm_num
  constructor
  · exact (age_replacement_mean_amended [ageRowA, ageRowB] 1 (by decide)).1
      (Or.inr ⟨-2, h2, by norm_num⟩)
  · exact (age_replacement_mean_amended [ageRowA, ageRowB] 0 (by decide)).2
      10 h1 (by norm_num)

/-- Sentinel-population row (0) in basin "Lake Victoria". -/
def popRow0 : Row := { exRow with population := 0 }

/-- Ordinary-population row (2) in the same basin. -/
def popRow2 : Row := { exRow with population := 2 }

/-- Ordinary-population row (3) in the same basin. -/
def popRow3 : Row := { exRow with population := 3 }

/-- C3 counterexample: on `[popRow0, popRow2, popRow3]` the basin mean
population is 5/3; `.astype(int)` truncates it to 1, so the sentinel row's
output population is 1, while rounding 5/3 to the nearest integer gives 2. -/
theorem population_round_cex :
    ((preprocess_data [popRow0, popRow2, popRow3]).getD 0 default).population = 1 ∧
    basinMeanPop [popRow0, popRow2, popRow3] "Lake Victoria" = 5 / 3 ∧
    round ((5 : ℚ) / 3) = 2 ∧
    ((1 : ℚ) ≠ ((2 : ℤ) : ℚ)) := by
  refine ⟨?_, ?_, ?_, by norm_num⟩
  · simp [preprocess_data, transformRow, popRow0, popRow2, popRow3, exRow,
      basinMeanPop, listMean, truncQ]
    norm_num
  · simp [basinMeanPop, popRow0, popRow2, popRow3, exRow, listMean]
    norm_num
  · rw [round_eq]
    norm_num

/-- C3 (amended): a row whose population is 0 or 1 receives the basin mean
population *truncated toward zero* (numpy `astype(int)`), not rounded to
the nearest integer; any other row keeps its population unchanged. -/
theorem population_impute_amended (df : List Row) (i : ℕ)
    (hi : i < df.length) :
    (((df.getD i default).population = 0 ∨ (df.getD i default).population = 1) →
      ((preprocess_data df).getD i default).population =
        (truncQ (basinMeanPop df (df.getD i default).basin) : ℚ)) ∧
    (((df.getD i default).population ≠ 0 ∧ (df.getD i default).population ≠ 1) →
      ((preprocess_data df).getD i default).population =
        (df.getD i default).population) := by
  rw [preprocess_data_getD df i hi]
  constructor
  · intro h
    show (if _ ∨ _ then ((truncQ (basinMeanPop df _) : ℤ) : ℚ) else _) = _
    rw [if_pos h]
  · intro h
    show (if _ ∨ _ then ((truncQ (basinMeanPop df _) : ℤ) : ℚ) else _) = _
    rw [if_neg (by simpa [not_or] using h)]

/-- Witness for C3 (amended) at `[popRow0, popRow2, popRow3]`: the sentinel
row 0 receives the truncated basin mean and row 1 keeps population 2. -/
theorem population_impute_amended_witness :
    ((preprocess_data [popRow0, popRow2, popRow3]).getD 0 default).population =
      (truncQ (basinMeanPop [popRow0, popRow2, popRow3]
        ((List.getD [popRow0, popRow2, popRow3] 0 default).basin)) : ℚ) ∧
    ((preprocess_data [popRow0, popRow2, popRow3]).getD 1 default).population =
      (List.getD [popRow0, popRow2, popRow3] 1 default).population := by
  constructor
  · exact (population_impute_amended [popRow0, popRow2, popRow3] 0 (by decide)).1
      (Or.inl rfl)
  · refine (population_impute_amended [popRow0, popRow2, popRow3] 1 (by decide)).2
      ⟨?_, ?_⟩ <;> norm_num [popRow2, exRow]

/-- Sentinel row for all three imputations: longitude 0, gps_height 0,
population 0. -/
def impRow1 : Row :=
  { exRow with longitude := 0, gps_height := 0, population := 0 }

/-- Second row in the same region and basin; population 1 is also a
sentinel. -/
def impRow2 : Row :=
  { exRow with longitude := 30, gps_height := 300, population := 1 }

/-- Third row in the same region and basin, fully populated. -/
def impRow3 : Row :=
  { exRow with longitude := 36, gps_height := 600, population := 10 }

/-- Dataset on which the inclusive and the sentinel-free group means
differ. -/
def impDf : List Row := [impRow1, impRow2, impRow3]

/-- C9: the group means used for imputation are computed over *all* rows of
the group, the sentinel-valued rows included: a sentinel row receives
exactly the all-rows group mean, and on `impDf` that inclusive mean is
strictly smaller than (hence biased toward the 0/1 sentinels relative to)
the mean over the non-sentinel rows alone, for all three imputed columns. -/
theorem impute_means_include_sentinels :
    (∀ (df : List Row) (i : ℕ), i < df.length →
      ((df.getD i default).longitude = 0 →
        ((preprocess_data df).getD i default).longitude =
          regionMeanLongitude df (df.getD i default).region_code) ∧
      ((df.getD i default).gps_height = 0 →
        ((preprocess_data df).getD i default).gps_height =
          basinMeanGps df (df.getD i default).basin) ∧
      (((df.getD i default).population = 0 ∨ (df.getD i default).population = 1) →
        ((preprocess_data df).getD i default).population =
          (truncQ (basinMeanPop df (df.getD i default).basin) : ℚ))) ∧
    (regionMeanLongitude impDf 11 = 22 ∧ regionMeanLongitudeNZ impDf 11 = 33 ∧
      regionMeanLongitude impDf 11 < regionMeanLongitudeNZ impDf 11) ∧
    (basinMeanGps impDf "Lake Victoria" = 300 ∧
      basinMeanGpsNZ impDf "Lake Victoria" = 450 ∧
      basinMeanGps impDf "Lake Victoria" < basinMeanGpsNZ impDf "Lake Victoria") ∧
    (basinMeanPop impDf "Lake Victoria" = 11 / 3 ∧
      basinMeanPopValid impDf "Lake Victoria" = 10 ∧
      basinMeanPop impDf "Lake Victoria" <
        basinMeanPopValid impDf "Lake Victoria") := by
  refine ⟨fun df i hi => ?_, ?_, ?_, ?_⟩
  · rw [preprocess_data_getD df i hi]
    refine ⟨fun h => ?_, fun h => ?_, fun h => ?_⟩
    · show (if (df.getD i default).longitude = 0 then _ else _) = _
      rw [if_pos h]
    · show (if (df.getD i default).gps_height = 0 then _ else _) = _
      rw [if_pos h]
    · show (if _ ∨ _ then ((truncQ (basinMeanPop df _) : ℤ) : ℚ) else _) = _
      rw [if_pos h]
  · have h1 : regionMeanLongitude impDf 11 = 22 := by
      simp [regionMeanLongitude, impDf, impRow1, impRow2, impRow3, exRow, listMean]
      norm_num
    have h2 : regionMeanLongitudeNZ impDf 11 = 33 := by
      simp [regionMeanLongitudeNZ, impDf, impRow1, impRow2, impRow3, exRow, listMean]
      norm_num
    exact ⟨h1, h2, by rw [h1, h2]; norm_num⟩
  · have h1 : basinMeanGps impDf "Lake Victoria" = 300 := by
      simp [basinMeanGps, impDf, impRow1, impRow2, impRow3, exRow, listMean]
      norm_num
    have h2 : basinMeanGpsNZ impDf "Lake Victoria" = 450 := by
      simp [basinMeanGpsNZ, impDf, impRow1, impRow2, impRow3, exRow, listMean]
      norm_num
    exact ⟨h1, h2, by rw [h1, h2]; norm_num⟩
  · have h1 : basinMeanPop impDf "Lake Victoria" = 11 / 3 := by
      simp [basinMeanPop, impDf, impRow1, impRow2, impRow3, exRow, listMean]
      norm_num
    have h2 : basinMeanPopValid impDf "Lake Victoria" = 10 := by
      simp [basinMeanPopValid, impDf, impRow1, impRow2, impRow3, exRow, listMean]
    exact ⟨h1, h2, by rw [h1, h2]; norm_num⟩

/-- Witness for C9's universal clause at `impDf`, row 0 (longitude 0): the
output longitude is the inclusive per-region mean. -/
theorem impute_means_include_sentinels_witness :
    ((preprocess_data impDf).getD 0 default).longitude =
      regionMeanLongitude impDf ((impDf.getD 0 default).region_code) :=
  ((impute_means_include_sentinels.1 impDf 0 (by decide)).1) rfl
